import Mathlib

/-!
Verification development for the TensorRT-LLM ChatGLM model-definition code
(`tensorrt_llm/models/chatglm/model.py`) and the bloom example entry point
(`examples/bloom/run.py`).

The Python code declares a computation graph; the tensor operations themselves
(LayerNorm/RmsNorm, Attention, MLP, Embedding) are external black boxes.  The
embedding below therefore keeps tensors as an abstract additive type `T` (with
rational scalar multiplication for the legacy `alpha` residual scale) and
passes the black-box layer functions in as parameters, while translating the
control flow, the model-name dispatch, the residual wiring, the loop over
decoder layers and the output marking literally from the source.  Python
runtime failures (accessing a never-assigned attribute or local, an out of
range index, a failed `assert`) are made explicit with an error type and
`Except`.
-/

/-- Errors the modelled Python code can raise.  `attributeError a` models
`AttributeError` on accessing attribute `a` that was never assigned
(the if/elif chains in `model.py` have no final `else`);
`unboundLocalError v` models `UnboundLocalError` for local `v`;
`assertionError msg` models a failed `assert` statement;
`configurationError` is the error kind the specification prescribes for
configuration mismatches (no class of that name exists in the source). -/
inductive PyError where
  | attributeError (attr : String)
  | unboundLocalError (v : String)
  | assertionError (msg : String)
  | typeError
  | indexError
  | configurationError
  deriving DecidableEq, Repr

/-- Normalization kinds: `LayerNorm` or `RmsNorm` (the two classes the source
assigns to `self.norm`). -/
inductive NormKind where
  | layerNorm
  | rmsNorm
  deriving DecidableEq, Repr

/-- `AttentionMaskType` values used by `ChatGLMDecoderLayer.__init__`. -/
inductive MaskKind where
  | bidirectional
  | causal
  | bidirectionalglm
  deriving DecidableEq, Repr

/-- `PositionEmbeddingType` values used by `ChatGLMDecoderLayer.__init__`. -/
inductive PosEmbKind where
  | chatglm
  | ropeGptj
  | learnedAbsolute
  deriving DecidableEq, Repr

/-- The fields of the Python `args` namespace object that the modelled code
reads.  (`model.py` reads many more fields, but only to forward them verbatim
into the black-box `Attention`/`MLP` constructors.) -/
structure Args where
  model_name : String
  num_layers : Nat
  apply_residual_connection_post_layernorm : Bool
  rmsnorm : Bool
  rotary_embedding_scaling : ℚ
  use_cache : Bool
  hidden_size : Nat
  vocab_size : Nat
  deriving Repr

/-- The bundle of variant attributes assigned by the if/elif chain at the top
of `ChatGLMDecoderLayer.__init__` (model.py lines 38-62).  Every field is an
`Option`: `none` models a Python attribute/local that the chain never
assigned for the given model name. -/
structure VariantBundle where
  alpha : Option ℚ
  norm : Option NormKind
  apply_residual_connection_post_layernorm : Option Bool
  attention_mask_type : Option MaskKind
  position_embedding_type : Option PosEmbKind
  rotary_scaling_factor : Option ℚ
  deriving Repr

/-- The seven model identifiers the if/elif chains in `model.py` recognize. -/
def supportedModelNames : List String :=
  ["chatglm_6b", "chatglm2_6b", "chatglm2_6b_32k", "chatglm3_6b",
   "chatglm3_6b_base", "chatglm3_6b_32k", "glm_10b"]

/-- The model names of the second (non-legacy rope) branch of
`ChatGLMDecoderLayer.__init__`. -/
def chatglm2FamilyNames : List String :=
  ["chatglm2_6b", "chatglm2_6b_32k", "chatglm3_6b", "chatglm3_6b_base",
   "chatglm3_6b_32k"]

/-- The model names of the second branch of `ChatGLMDecoderLayer.forward`
(model.py lines 155-158). -/
def nonLegacyNames : List String :=
  ["chatglm2_6b", "chatglm2_6b_32k", "chatglm3_6b", "chatglm3_6b_base",
   "chatglm3_6b_32k", "glm_10b"]

/-- The variant-selection if/elif chain of `ChatGLMDecoderLayer.__init__`
(model.py lines 38-62), translated branch by branch.  `psqrt` models the
Python float power `x ** 0.5` used for `self.alpha = (2 * num_layers) ** 0.5`.
The final case (`else`) does not exist in the source: falling through the
chain leaves every attribute unassigned, which the all-`none` bundle records. -/
def selectLayerVariant (psqrt : ℚ → ℚ) (args : Args) : VariantBundle :=
  if args.model_name ∈ ["chatglm_6b"] then
    { alpha := some (psqrt (2 * args.num_layers))
      norm := some NormKind.layerNorm
      apply_residual_connection_post_layernorm := none
      attention_mask_type := some MaskKind.bidirectional
      position_embedding_type := some PosEmbKind.chatglm
      rotary_scaling_factor := none }
  else if args.model_name ∈ chatglm2FamilyNames then
    { alpha := none
      norm := some (if args.rmsnorm then NormKind.rmsNorm else NormKind.layerNorm)
      apply_residual_connection_post_layernorm :=
        some args.apply_residual_connection_post_layernorm
      attention_mask_type := some MaskKind.causal
      position_embedding_type := some PosEmbKind.ropeGptj
      rotary_scaling_factor :=
        if args.model_name ∈ ["chatglm2_6b_32k", "chatglm3_6b_32k"] then
          some args.rotary_embedding_scaling
        else none }
  else if args.model_name ∈ ["glm_10b"] then
    { alpha := none
      norm := some NormKind.layerNorm
      apply_residual_connection_post_layernorm :=
        some args.apply_residual_connection_post_layernorm
      attention_mask_type := some MaskKind.bidirectionalglm
      position_embedding_type := some PosEmbKind.learnedAbsolute
      rotary_scaling_factor := none }
  else
    { alpha := none, norm := none,
      apply_residual_connection_post_layernorm := none,
      attention_mask_type := none, position_embedding_type := none,
      rotary_scaling_factor := none }

/-- One constructed `ChatGLMDecoderLayer`.  `T` is the tensor type, `K` the
present-key/value type, `P` the type of one column of `position_ids`.
`pre_norm`, `attention`, `mlp`, `post_norm` are the black-box sub-modules
built in `__init__`; `norm` records which normalization class `self.norm`
was assigned. -/
structure ChatGLMDecoderLayer (T K P : Type) where
  model_name : String
  use_cache : Bool
  alpha : Option ℚ
  apply_residual_connection_post_layernorm : Option Bool
  norm : NormKind
  pre_norm : T → T
  attention : T → List P → T × K
  mlp : T → T
  post_norm : T → T

/-- `ChatGLMDecoderLayer.__init__` (model.py lines 32-116).  The variant
chain runs first; line 64 then reads `self.norm` to build `pre_norm`, which
raises `AttributeError` when no branch of the chain matched.  The black-box
sub-module constructions (Attention, MLP, norms) are supplied as the function
parameters `preNormF`, `postNormF`, `attnF`, `mlpF`. -/
def mkChatGLMDecoderLayer {T K P : Type} (psqrt : ℚ → ℚ) (args : Args)
    (preNormF postNormF : T → T) (attnF : T → List P → T × K) (mlpF : T → T) :
    Except PyError (ChatGLMDecoderLayer T K P) :=
  let b := selectLayerVariant psqrt args
  match b.norm with
  | none => Except.error (PyError.attributeError "norm")
  | some nk =>
      Except.ok
        { model_name := args.model_name
          use_cache := args.use_cache
          alpha := b.alpha
          apply_residual_connection_post_layernorm :=
            b.apply_residual_connection_post_layernorm
          norm := nk
          pre_norm := preNormF
          attention := attnF
          mlp := mlpF
          post_norm := postNormF }

/-- `ChatGLMDecoderLayer.forward` (model.py lines 118-171).  Returns the new
hidden states together with `some` present key/values exactly when
`use_cache` is set (Python returns a pair instead of a bare tensor then).
`position_ids` is forwarded to the attention black box (used only by
ChatGLM-6B rotary handling inside it).  The two residual-wiring branches and
the final unreachable fall-through (`output` unbound at line 171) are
translated literally. -/
def ChatGLMDecoderLayer.forward {T K P : Type} [AddCommGroup T] [Module ℚ T]
    (layer : ChatGLMDecoderLayer T K P) (hidden_states : T)
    (position_ids : List P) : Except PyError (T × Option K) :=
  let norm_output := layer.pre_norm hidden_states
  let ar := layer.attention norm_output position_ids
  let attention_output := ar.1
  let presents : Option K := if layer.use_cache then some ar.2 else none
  if layer.model_name ∈ ["chatglm_6b"] then
    match layer.alpha with
    | none => Except.error (PyError.attributeError "alpha")
    | some a =>
        let residual := norm_output
        let norm_input := a • residual + attention_output
        let norm_output2 := layer.post_norm norm_input
        let mlp_output := layer.mlp norm_output2
        let residual2 := norm_output2
        let output := a • residual2 + mlp_output
        Except.ok (output, presents)
  else if layer.model_name ∈ nonLegacyNames then
    match layer.apply_residual_connection_post_layernorm with
    | none =>
        Except.error
          (PyError.attributeError "apply_residual_connection_post_layernorm")
    | some ap =>
        let residual := if ap then norm_output else hidden_states
        let norm_input := residual + attention_output
        let norm_output2 := layer.post_norm norm_input
        let mlp_output := layer.mlp norm_output2
        let residual2 := if ap then norm_output2 else norm_input
        let output := residual2 + mlp_output
        Except.ok (output, presents)
  else
    Except.error (PyError.unboundLocalError "output")

/-- The loop over decoder layers in `ChatGLMModel.forward` (model.py lines
261-284).  Each `l ∈ layers` is a constructed layer's `forward` bound to its
own KV-cache slice (the per-layer `KeyValueCacheParams` re-slicing is
bookkeeping forwarded into the attention black box and is absorbed into the
layer functions).  Translated literally: `hidden_states = layer_output[0]`
and `presents.append(layer_output[1])` happen only under `if self.use_cache:`
— when the cache is off, the hidden states are NOT threaded and the layer
output is dropped on the floor. -/
def runDecoderLayers {T K P : Type} (use_cache : Bool) (position_ids : List P)
    (layers : List (T → List P → Except PyError (T × Option K)))
    (hidden_states : T) : Except PyError (T × List K) :=
  match layers with
  | [] => Except.ok (hidden_states, [])
  | l :: ls =>
      (l hidden_states position_ids).bind fun layer_output =>
        if use_cache then
          match layer_output.2 with
          | some p =>
              (runDecoderLayers use_cache position_ids ls layer_output.1).bind
                fun rest => Except.ok (rest.1, p :: rest.2)
          | none => Except.error PyError.typeError
        else
          runDecoderLayers use_cache position_ids ls hidden_states

/-- One constructed `ChatGLMModel` (the decoder stack).  `ι` is the type of
the `input_ids` tensor.  `position_embeddings`/`block_embeddings` are `some`
only when `__init__` created them (glm_10b).  `norm` records the class chosen
for `self.norm` at lines 182-188. -/
structure ChatGLMModel (T K P ι : Type) where
  model_name : String
  use_cache : Bool
  norm : NormKind
  embedding : ι → T
  position_embeddings : Option (P → T)
  block_embeddings : Option (P → T)
  layers : List (T → List P → Except PyError (T × Option K))
  final_norm : T → T

/-- `ChatGLMModel.__init__` (model.py lines 176-232).  The model-level norm
class is selected by another else-less if/elif chain (lines 182-188); the two
extra embedding tables exist only for glm_10b (lines 202-222); the layer list
is built from `ChatGLMDecoderLayer(i, args)` (line 224, each constructed
layer contributing its `forward`); `final_norm` is built from `self.norm`
(line 227), raising `AttributeError` when the chain matched no branch.
The black-box tables and per-layer sub-modules are supplied as function
parameters. -/
def mkChatGLMModel {T K P ι : Type} [AddCommGroup T] [Module ℚ T]
    (psqrt : ℚ → ℚ) (args : Args) (embF : ι → T) (posEmbF blockEmbF : P → T)
    (layerPre layerPost : Nat → T → T) (layerAttn : Nat → T → List P → T × K)
    (layerMlp : Nat → T → T) (finalNormF : T → T) :
    Except PyError (ChatGLMModel T K P ι) :=
  let mnorm : Option NormKind :=
    if args.model_name ∈ ["chatglm_6b", "glm_10b"] then some NormKind.layerNorm
    else if args.model_name ∈ chatglm2FamilyNames then some NormKind.rmsNorm
    else none
  let pe : Option (P → T) :=
    if args.model_name ∈ ["glm_10b"] then some posEmbF else none
  let be : Option (P → T) :=
    if args.model_name ∈ ["glm_10b"] then some blockEmbF else none
  ((List.range args.num_layers).mapM fun i =>
      (mkChatGLMDecoderLayer psqrt args (layerPre i) (layerPost i)
          (layerAttn i) (layerMlp i)).map
        ChatGLMDecoderLayer.forward).bind
    fun layers =>
      match mnorm with
      | none => Except.error (PyError.attributeError "norm")
      | some nk =>
          Except.ok
            { model_name := args.model_name
              use_cache := args.use_cache
              norm := nk
              embedding := embF
              position_embeddings := pe
              block_embeddings := be
              layers := layers
              final_norm := finalNormF }

/-- `ChatGLMModel.forward` (model.py lines 234-289).  For glm_10b the
position ids are split along dimension 1 into columns; columns 0 and 1 are
embedded through the two dedicated tables, summed, reshaped (the `view` at
lines 250-255 is value-preserving and modelled at the shape level separately
by `glmPositionShape`) and added to the token embedding.  Then the layer loop
runs and the final norm is applied; presents are returned exactly when
`use_cache` is set. -/
def ChatGLMModel.forward {T K P ι : Type} [AddCommGroup T] [Module ℚ T]
    (m : ChatGLMModel T K P ι) (input_ids : ι) (position_ids : List P) :
    Except PyError (T × Option (List K)) :=
  let hidden_states := m.embedding input_ids
  let emb : Except PyError T :=
    if m.model_name ∈ ["glm_10b"] then
      match m.position_embeddings, m.block_embeddings, position_ids with
      | some pe, some be, p0 :: p1 :: _ =>
          Except.ok (hidden_states + (pe p0 + be p1))
      | none, _, _ => Except.error (PyError.attributeError "position_embeddings")
      | _, none, _ => Except.error (PyError.attributeError "block_embeddings")
      | _, _, _ => Except.error PyError.indexError
    else Except.ok hidden_states
  emb.bind fun h0 =>
    (runDecoderLayers m.use_cache position_ids m.layers h0).bind fun r =>
      Except.ok (m.final_norm r.1,
        if m.use_cache then some r.2 else none)

/-- The plugin-configuration flags of the ambient network
(`default_net().plugin_config`) that `ChatGLMHeadModel.forward` reads. -/
structure PluginConfig where
  remove_input_padding : Bool
  paged_kv_cache : Bool
  deriving DecidableEq, Repr

/-- Result of `ChatGLMHeadModel.forward`: the logits, the presents when the
Python function returns the pair `(lm_logits, presents)` (otherwise `none`),
and the names passed to `mark_output`, in call order. -/
structure HeadOut (L K : Type) where
  logits : L
  presents : Option (List K)
  marked : List String
  deriving DecidableEq, Repr

/-- `ChatGLMHeadModel.forward` (model.py lines 377-409).  Runs the stack
(`super().forward`), unpacks the `(hidden, presents)` pair when `use_cache`,
gathers the last-token hidden states, projects through `lm_head`, marks
`logits`, and — only when `use_cache` is set and the paged KV cache is
disabled — marks every present tensor and returns the pair; otherwise only
the logits are returned.  `gatherF` and `lmHeadF` are the black boxes
`gather_last_token_logits` and the built `ColumnLinear` (their list-level
content is modelled concretely below for the lm-head claim). -/
def chatGLMHeadForward {T K P ι L : Type} [AddCommGroup T] [Module ℚ T]
    (net : PluginConfig) (m : ChatGLMModel T K P ι)
    (gatherF : T → List Nat → Bool → T) (lmHeadF : T → L)
    (input_ids : ι) (position_ids : List P) (last_token_ids : List Nat) :
    Except PyError (HeadOut L K) :=
  (m.forward input_ids position_ids).bind fun r =>
    (if m.use_cache then
        match r.2 with
        | some ps => Except.ok (r.1, some ps)
        | none => Except.error PyError.typeError
      else
        Except.ok (r.1, (none : Option (List K)))).bind
      fun hp =>
        let hidden_states := gatherF hp.1 last_token_ids net.remove_input_padding
        let lm_logits := lmHeadF hidden_states
        if m.use_cache && !net.paged_kv_cache then
          match hp.2 with
          | some ps =>
              Except.ok
                { logits := lm_logits
                  presents := some ps
                  marked := "logits" ::
                    (List.range ps.length).map
                      (fun i => "present_key_value_" ++ toString i) }
          | none => Except.error PyError.typeError
        else
          Except.ok { logits := lm_logits, presents := none, marked := ["logits"] }

/-- Modelled from the spec: `pad_vocab_size` (from `tensorrt_llm/_utils.py`,
which is not part of the provided sources) pads the vocabulary size up to the
next "multiple required by parallel sharding", i.e. the least multiple of the
tensor-parallel degree that is ≥ the vocabulary size. -/
def pad_vocab_size (vocab_size tp_size : Nat) : Nat :=
  ((vocab_size + tp_size - 1) / tp_size) * tp_size

/-- Modelled from the spec: `gather_last_token_logits`
(from `tensorrt_llm/functional.py`, not part of the provided sources)
"gathers, for each sequence in the batch, the hidden state at its last valid
(non-padding) position" given by `last_token_ids`.  Hidden states are
batch × sequence × hidden rational lists. -/
def gather_last_token_logits (hidden : List (List (List ℚ)))
    (last_token_ids : List Nat) : List (List ℚ) :=
  (hidden.zip last_token_ids).map fun sl => sl.1.getD sl.2 []

/-- Modelled from the spec: `ColumnLinear` (from `tensorrt_llm/layers`, not
part of the provided sources) is a linear projection with an optional bias and
a declared output width; `ChatGLMHeadModel.init` builds it bias-free. -/
structure ColumnLinear where
  in_features : Nat
  out_features : Nat
  bias : Bool
  weight : List (List ℚ)
  bias_vector : List ℚ
  deriving Repr

/-- Applying the projection to one gathered hidden-state row: one dot product
per output row of the weight matrix, plus the bias row only when `bias` is
set (it never is for this model's lm_head). -/
def ColumnLinear.apply (c : ColumnLinear) (x : List ℚ) : List ℚ :=
  let y := c.weight.map fun row => ((row.zip x).map fun p => p.1 * p.2).sum
  if c.bias then (y.zip c.bias_vector).map (fun p => p.1 + p.2) else y

/-- The `lm_head` construction in `ChatGLMHeadModel.init` (model.py lines
367-375): in_features = hidden_size, out_features = the padded vocabulary
size, bias=False. -/
def mkLmHead (hidden_size vocab_size tp_size : Nat)
    (weight : List (List ℚ)) : ColumnLinear :=
  { in_features := hidden_size
    out_features := pad_vocab_size vocab_size tp_size
    bias := false
    weight := weight
    bias_vector := [] }

/-- The head pipeline at the list level: gather one hidden-state row per
sequence, then project each through the lm_head. -/
def headGatherProject (lm : ColumnLinear) (hidden : List (List (List ℚ)))
    (last_token_ids : List Nat) : List (List ℚ) :=
  (gather_last_token_logits hidden last_token_ids).map lm.apply

/-- Number of elements of a tensor with the given shape. -/
def tensorVolume (s : List Nat) : Nat := s.foldr (fun a b => a * b) 1

/-- Shape semantics of `Tensor.view`: the target shape must describe exactly
as many elements as the source shape. -/
def viewShape (s target : List Nat) : Option (List Nat) :=
  if tensorVolume s = tensorVolume target then some target else none

/-- Shape semantics of elementwise addition.  (On the one reachable path of
the glm_10b positional code the operand shapes agree exactly, so implicit
broadcast never fires and strict equality is faithful.) -/
def addShape (a b : List Nat) : Option (List Nat) :=
  if a = b then some a else none

/-- Shape semantics of an embedding lookup: one hidden-size vector per index,
appending the embedding dimension to the index-tensor shape. -/
def embedShape (ids_shape : List Nat) (hidden : Nat) : List Nat :=
  ids_shape ++ [hidden]

/-- The shape-level content of the glm_10b positional-encoding block of
`ChatGLMModel.forward` (model.py lines 244-257).  `position_ids` has shape
[batch, 2, seq]; `split(1, dim=1)` yields columns of shape [batch, 1, seq];
each is embedded (appending `hidden`), the two are added, the sum is
reshaped with `view` to `[shape(input_ids, 0), shape(input_ids, 1), 4096]` —
the last dimension is the HARD-CODED literal 4096 from line 254, not the
configured hidden size — and the result is added to the token embedding of
shape [batch, seq, hidden]. -/
def glmPositionShape (batch seq hidden : Nat) : Option (List Nat) :=
  (addShape (embedShape [batch, 1, seq] hidden)
      (embedShape [batch, 1, seq] hidden)).bind fun summed =>
    (viewShape summed [batch, seq, 4096]).bind fun viewed =>
      addShape [batch, seq, hidden] viewed

/-- The fields of the engine sidecar descriptor (`config.json`,
`builder_config` section) that `examples/bloom/run.py` reads. -/
structure BuilderConfig where
  precision : String
  tensor_parallel : Nat
  num_heads : Nat
  hidden_size : Nat
  vocab_size : Nat
  num_layers : Nat
  deriving DecidableEq, Repr

/-- The message of the `assert` at run.py lines 62-63. -/
def worldSizeAssertMsg (world_size mpi_world_size : Nat) : String :=
  "Engine world size (" ++ toString world_size ++ ") != Runtime world size ("
    ++ toString mpi_world_size ++ ")"

/-- The `__main__` block of `examples/bloom/run.py` (lines 52-105), from the
point the sidecar descriptor has been parsed.  `mpi_world_size` is the
runtime worker count (`tensorrt_llm.mpi_world_size()`); `generate` stands for
everything after the assert — per-rank dimension splitting, engine
deserialization, `GenerationSession.setup` and `decode` — and produces the
output ids.  The assert at lines 62-63 compares the descriptor's
`tensor_parallel` with the runtime world size and raises `AssertionError`
on mismatch, before any engine loading or generation. -/
def bloomRunMain (config : BuilderConfig) (mpi_world_size : Nat)
    (generate : BuilderConfig → List Nat) : Except PyError (List Nat) :=
  let world_size := config.tensor_parallel
  if world_size = mpi_world_size then
    Except.ok (generate config)
  else
    Except.error
      (PyError.assertionError (worldSizeAssertMsg world_size mpi_world_size))

/-- Helper: `List.mapM` over `Except` succeeds pointwise. -/
theorem exceptMapM_ok {α β : Type} (l : List α) (f : α → Except PyError β)
    (g : α → β) (h : ∀ a ∈ l, f a = Except.ok (g a)) :
    l.mapM f = Except.ok (l.map g) := by
  induction l with
  | nil => rfl
  | cons x xs ih =>
      rw [List.mapM_cons, h x (List.mem_cons_self x xs),
        ih (fun a ha => h a (List.mem_cons_of_mem x ha))]
      rfl

/-- C1 (counterexample): at the concrete unknown identifier "bloom", decoder
layer construction fails with `AttributeError` on the never-assigned `norm`
attribute — not with a `ConfigurationError` as the claim states. -/
theorem c1_counterexample :
    mkChatGLMDecoderLayer (T := ℚ) (K := Unit) (P := ℚ) (fun q => q)
        { model_name := "bloom", num_layers := 2,
          apply_residual_connection_post_layernorm := false, rmsnorm := true,
          rotary_embedding_scaling := 1, use_cache := true,
          hidden_size := 4096, vocab_size := 100 }
        id id (fun t _ => (t, ())) id
      = Except.error (PyError.attributeError "norm") ∧
    (Except.error (PyError.attributeError "norm") :
        Except PyError (ChatGLMDecoderLayer ℚ Unit ℚ)) ≠
      Except.error PyError.configurationError := by
  constructor
  · rfl
  · simp

/-- C1 (amended): for every model identifier outside the supported list,
decoder-layer construction fails — the variant chain assigns nothing and the
subsequent `self.norm` access raises `AttributeError` — rather than
proceeding with an incompletely populated variant bundle; the failure is an
`AttributeError`, not a `ConfigurationError`. -/
theorem c1_unknown_name_fails {T K P : Type} (psqrt : ℚ → ℚ) (args : Args)
    (hname : args.model_name ∉ supportedModelNames)
    (preNormF postNormF : T → T) (attnF : T → List P → T × K) (mlpF : T → T) :
    mkChatGLMDecoderLayer psqrt args preNormF postNormF attnF mlpF
      = Except.error (PyError.attributeError "norm") := by
  simp only [supportedModelNames, List.mem_cons, List.not_mem_nil, or_false,
    not_or] at hname
  obtain ⟨h1, h2, h3, h4, h5, h6, h7⟩ := hname
  unfold mkChatGLMDecoderLayer selectLayerVariant
  simp [chatglm2FamilyNames, h1, h2, h3, h4, h5, h6, h7]

/-- C1 witness for the amended theorem, at the unknown identifier "bloom2". -/
theorem c1_unknown_name_fails_witness :
    ("bloom2" ∉ supportedModelNames) ∧
    mkChatGLMDecoderLayer (T := ℚ) (K := Unit) (P := ℚ) (fun q => q)
        { model_name := "bloom2", num_layers := 2,
          apply_residual_connection_post_layernorm := false, rmsnorm := true,
          rotary_embedding_scaling := 1, use_cache := true,
          hidden_size := 4096, vocab_size := 100 }
        id id (fun t _ => (t, ())) id
      = Except.error (PyError.attributeError "norm") :=
  ⟨by decide, c1_unknown_name_fails _ _ (by decide) _ _ _ _⟩

/-- C6: for every supported model identifier, the variant chain selects
exactly one residual-combine policy — the α scale is assigned exactly when
the post-layernorm residual flag is not (never both, never neither) — and
exactly one normalization kind; moreover exactly one of the two residual
branches of `forward` applies to the name. -/
theorem c6_exactly_one_policy (psqrt : ℚ → ℚ) (args : Args)
    (hname : args.model_name ∈ supportedModelNames) :
    ((selectLayerVariant psqrt args).alpha.isSome
        = !(selectLayerVariant psqrt
            args).apply_residual_connection_post_layernorm.isSome) ∧
    (selectLayerVariant psqrt args).norm.isSome = true ∧
    (decide (args.model_name ∈ ["chatglm_6b"])
        = !decide (args.model_name ∈ nonLegacyNames)) := by
  simp only [supportedModelNames, List.mem_cons, List.not_mem_nil,
    or_false] at hname
  rcases hname with h|h|h|h|h|h|h <;>
    simp [selectLayerVariant, chatglm2FamilyNames, nonLegacyNames, h,
      apply_ite Option.isSome]

/-- C6 witness at the concrete identifier "chatglm2_6b". -/
theorem c6_exactly_one_policy_witness :
    ("chatglm2_6b" ∈ supportedModelNames) ∧
    (((selectLayerVariant (fun q => q)
          { model_name := "chatglm2_6b", num_layers := 28,
            apply_residual_connection_post_layernorm := false, rmsnorm := true,
            rotary_embedding_scaling := 1, use_cache := true,
            hidden_size := 4096, vocab_size := 65024 }).alpha.isSome
        = !(selectLayerVariant (fun q => q)
            { model_name := "chatglm2_6b", num_layers := 28,
              apply_residual_connection_post_layernorm := false, rmsnorm := true,
              rotary_embedding_scaling := 1, use_cache := true,
              hidden_size := 4096, vocab_size := 65024
            }).apply_residual_connection_post_layernorm.isSome) ∧
      (selectLayerVariant (fun q => q)
          { model_name := "chatglm2_6b", num_layers := 28,
            apply_residual_connection_post_layernorm := false, rmsnorm := true,
            rotary_embedding_scaling := 1, use_cache := true,
            hidden_size := 4096, vocab_size := 65024 }).norm.isSome = true ∧
      (decide (("chatglm2_6b" : String) ∈ ["chatglm_6b"])
          = !decide (("chatglm2_6b" : String) ∈ nonLegacyNames))) :=
  ⟨by decide, c6_exactly_one_policy _ _ (by decide)⟩

/-- C9: the glm_10b learned positional path of `ChatGLMModel.forward` is
shape-consistent (the `view` to the hard-coded last dimension 4096 and the
subsequent addition to the token embedding are both well-formed) precisely
when the configured hidden size equals 4096. -/
theorem c9_glm_position_shape (batch seq hidden : Nat)
    (hb : 0 < batch) (hs : 0 < seq) :
    (glmPositionShape batch seq hidden).isSome ↔ hidden = 4096 := by
  by_cases h4 : hidden = 4096
  · subst h4
    simp [glmPositionShape, addShape, viewShape, embedShape, tensorVolume]
  · have hne : ¬(batch * (1 * (seq * (hidden * 1)))
        = batch * (seq * (4096 * 1))) := by
      intro he
      simp only [one_mul, mul_one] at he
      exact h4 (Nat.eq_of_mul_eq_mul_left hs (Nat.eq_of_mul_eq_mul_left hb he))
    simp [glmPositionShape, addShape, viewShape, embedShape, tensorVolume,
      hne, h4]

/-- C9 witness: at batch = seq = 1 and hidden_size = 4096 the path is
well-formed. -/
theorem c9_glm_position_shape_witness :
    0 < 1 ∧ 0 < 1 ∧
      ((glmPositionShape 1 1 4096).isSome ↔ 4096 = 4096) :=
  ⟨Nat.one_pos, Nat.one_pos, c9_glm_position_shape 1 1 4096 Nat.one_pos Nat.one_pos⟩

/-- A concrete mismatching sidecar descriptor for the C8 theorems. -/
def bloomCfgMismatch : BuilderConfig :=
  { precision := "float16", tensor_parallel := 2, num_heads := 32,
    hidden_size := 4096, vocab_size := 250880, num_layers := 30 }

/-- C8 (counterexample): with the descriptor recording tensor_parallel = 2
and a runtime world size of 1, the entry point fails with `AssertionError`
(the bare `assert` at run.py lines 62-63), not with a `ConfigurationError`
as the claim states. -/
theorem c8_counterexample :
    bloomRunMain bloomCfgMismatch 1 (fun _ => [])
      = Except.error (PyError.assertionError (worldSizeAssertMsg 2 1)) ∧
    bloomRunMain bloomCfgMismatch 1 (fun _ => [])
      ≠ Except.error PyError.configurationError := by
  constructor
  · rfl
  · intro h
    simp [bloomRunMain, bloomCfgMismatch] at h

/-- C8 (amended): when the descriptor's tensor-parallel degree differs from
the runtime worker count, the entry point fails fatally with an
`AssertionError` (not a dedicated `ConfigurationError`) before any generation
is attempted — the result does not depend on the generation oracle; when the
two are equal, loading proceeds to generation. -/
theorem c8_world_size_check (config : BuilderConfig) (mpi_world_size : Nat)
    (generate generate' : BuilderConfig → List Nat) :
    (config.tensor_parallel ≠ mpi_world_size →
      bloomRunMain config mpi_world_size generate
        = Except.error (PyError.assertionError
            (worldSizeAssertMsg config.tensor_parallel mpi_world_size)) ∧
      bloomRunMain config mpi_world_size generate
        = bloomRunMain config mpi_world_size generate') ∧
    (config.tensor_parallel = mpi_world_size →
      bloomRunMain config mpi_world_size generate
        = Except.ok (generate config)) := by
  unfold bloomRunMain
  constructor
  · intro hne
    simp [hne]
  · intro he
    simp [he]

/-- C8 witness for the amended theorem: both sides of the check at concrete
values (mismatch 2 vs 1 errors; match 1 vs 1 proceeds). -/
theorem c8_world_size_check_witness :
    ((2 : Nat) ≠ 1) ∧
    bloomRunMain bloomCfgMismatch 1 (fun _ => [7])
      = Except.error (PyError.assertionError (worldSizeAssertMsg 2 1)) := by
  refine ⟨by decide, ?_⟩
  exact ((c8_world_size_check bloomCfgMismatch 1 (fun _ => [7])
    (fun _ => [7])).1 (by decide)).1

/-- C3: for the legacy family (chatglm_6b), layer construction succeeds and
`forward` uses the learned scale α = sqrt(2·num_layers) (here `psqrt` applied
to 2·num_layers, modelling the float square root) in both residual combines:
the post-norm input is α·norm_output + attention_output and the final output
is α·norm_output2 + mlp_output with
norm_output2 = PostNorm(α·norm_output + attention_output). -/
theorem c3_legacy_alpha_residual {T K P : Type} [AddCommGroup T] [Module ℚ T]
    (psqrt : ℚ → ℚ) (args : Args) (hname : args.model_name = "chatglm_6b")
    (preNormF postNormF : T → T) (attnF : T → List P → T × K) (mlpF : T → T)
    (h : T) (pos : List P) :
    ∃ layer, mkChatGLMDecoderLayer psqrt args preNormF postNormF attnF mlpF
        = Except.ok layer ∧
      layer.forward h pos = Except.ok
        (let α := psqrt (2 * args.num_layers)
         let norm_output := preNormF h
         let attention_output := (attnF norm_output pos).1
         let norm_output2 := postNormF (α • norm_output + attention_output)
         (α • norm_output2 + mlpF norm_output2,
          if args.use_cache then some (attnF norm_output pos).2 else none)) := by
  simp [mkChatGLMDecoderLayer, selectLayerVariant, ChatGLMDecoderLayer.forward,
    hname]

/-- C3 witness: a concrete chatglm_6b layer (num_layers = 2, psqrt = id, so
α = 4) on input 3 with attention t ↦ t + 1 and identity norms/MLP yields
4·(4·3 + 4) + (4·3 + 4) = 80. -/
theorem c3_legacy_alpha_residual_witness :
    ({ model_name := "chatglm_6b", num_layers := 2,
       apply_residual_connection_post_layernorm := false, rmsnorm := false,
       rotary_embedding_scaling := 1, use_cache := true,
       hidden_size := 4096, vocab_size := 130528 } : Args).model_name
      = "chatglm_6b" ∧
    (∃ layer, mkChatGLMDecoderLayer (T := ℚ) (K := Unit) (P := ℚ) (fun q => q)
        { model_name := "chatglm_6b", num_layers := 2,
          apply_residual_connection_post_layernorm := false, rmsnorm := false,
          rotary_embedding_scaling := 1, use_cache := true,
          hidden_size := 4096, vocab_size := 130528 }
        id id (fun t _ => (t + 1, ())) id = Except.ok layer ∧
      layer.forward 3 [] = Except.ok (80, some ())) := by
  refine ⟨rfl, ?_⟩
  obtain ⟨layer, hmk, hfwd⟩ := c3_legacy_alpha_residual (T := ℚ) (K := Unit)
    (P := ℚ) (fun q => q)
    { model_name := "chatglm_6b", num_layers := 2,
      apply_residual_connection_post_layernorm := false, rmsnorm := false,
      rotary_embedding_scaling := 1, use_cache := true,
      hidden_size := 4096, vocab_size := 130528 }
    rfl id id (fun t _ => (t + 1, ())) id 3 []
  refine ⟨layer, hmk, ?_⟩
  rw [hfwd]
  norm_num

/-- C4: for every non-legacy model name, layer construction succeeds and
`forward` computes residual combine A as
(norm_output if the post-layernorm residual flag else hidden_states) +
attention_output, and residual combine B with the same flag selecting
norm_output2 or the combine-A result as the base added to mlp_output. -/
theorem c4_nonlegacy_residual {T K P : Type} [AddCommGroup T] [Module ℚ T]
    (psqrt : ℚ → ℚ) (args : Args) (hname : args.model_name ∈ nonLegacyNames)
    (preNormF postNormF : T → T) (attnF : T → List P → T × K) (mlpF : T → T)
    (h : T) (pos : List P) :
    ∃ layer, mkChatGLMDecoderLayer psqrt args preNormF postNormF attnF mlpF
        = Except.ok layer ∧
      layer.forward h pos = Except.ok
        (let norm_output := preNormF h
         let attention_output := (attnF norm_output pos).1
         let norm_input :=
           (if args.apply_residual_connection_post_layernorm then norm_output
            else h) + attention_output
         let norm_output2 := postNormF norm_input
         ((if args.apply_residual_connection_post_layernorm then norm_output2
           else norm_input) + mlpF norm_output2,
          if args.use_cache then some (attnF norm_output pos).2 else none)) := by
  simp only [nonLegacyNames, List.mem_cons, List.not_mem_nil, or_false] at hname
  rcases hname with hn|hn|hn|hn|hn|hn <;>
    simp [mkChatGLMDecoderLayer, selectLayerVariant, ChatGLMDecoderLayer.forward,
      chatglm2FamilyNames, nonLegacyNames, hn]

/-- C4 witness: a concrete chatglm3_6b layer with the post-layernorm flag
off, attention t ↦ t + 1 and identity norms/MLP maps 3 to
(3 + 4) + (3 + 4) = 14. -/
theorem c4_nonlegacy_residual_witness :
    (({ model_name := "chatglm3_6b", num_layers := 28,
        apply_residual_connection_post_layernorm := false, rmsnorm := true,
        rotary_embedding_scaling := 1, use_cache := true,
        hidden_size := 4096, vocab_size := 65024 } : Args).model_name
      ∈ nonLegacyNames) ∧
    (∃ layer, mkChatGLMDecoderLayer (T := ℚ) (K := Unit) (P := ℚ) (fun q => q)
        { model_name := "chatglm3_6b", num_layers := 28,
          apply_residual_connection_post_layernorm := false, rmsnorm := true,
          rotary_embedding_scaling := 1, use_cache := true,
          hidden_size := 4096, vocab_size := 65024 }
        id id (fun t _ => (t + 1, ())) id = Except.ok layer ∧
      layer.forward 3 [] = Except.ok (14, some ())) := by
  refine ⟨by decide, ?_⟩
  obtain ⟨layer, hmk, hfwd⟩ := c4_nonlegacy_residual (T := ℚ) (K := Unit)
    (P := ℚ) (fun q => q)
    { model_name := "chatglm3_6b", num_layers := 28,
      apply_residual_connection_post_layernorm := false, rmsnorm := true,
      rotary_embedding_scaling := 1, use_cache := true,
      hidden_size := 4096, vocab_size := 65024 }
    (by decide) id id (fun t _ => (t + 1, ())) id 3 []
  refine ⟨layer, hmk, ?_⟩
  rw [hfwd]
  norm_num

/-- Concrete args for the C2 evaluation with the KV cache disabled. -/
def argsC2CacheOff : Args :=
  { model_name := "chatglm2_6b", num_layers := 1,
    apply_residual_connection_post_layernorm := false, rmsnorm := true,
    rotary_embedding_scaling := 1, use_cache := false,
    hidden_size := 4096, vocab_size := 65024 }

/-- Concrete args identical to `argsC2CacheOff` except the cache is on. -/
def argsC2CacheOn : Args :=
  { model_name := "chatglm2_6b", num_layers := 1,
    apply_residual_connection_post_layernorm := false, rmsnorm := true,
    rotary_embedding_scaling := 1, use_cache := true,
    hidden_size := 4096, vocab_size := 65024 }

/-- C2 (evaluation at the failing input): a one-layer chatglm2_6b stack whose
single layer maps hidden state 5 to 22 (attention t ↦ t + 1, identity norms
and MLP, identity embedding and final norm).  With `use_cache = False` the
loop at model.py lines 264-284 never reassigns `hidden_states` (the
reassignment sits inside `if self.use_cache:`), so the forward output is the
bare token embedding 5 and the layer output is discarded; the identical model
with `use_cache = True` threads the layer and returns 22.  The claim (and the
spec) require the layers to be threaded in both configurations. -/
theorem c2_use_cache_off_drops_layers :
    (mkChatGLMModel (T := ℚ) (K := Unit) (P := ℚ) (ι := ℚ) (fun q => q)
        argsC2CacheOff (fun q => q) (fun _ => 0) (fun _ => 0)
        (fun _ t => t) (fun _ t => t) (fun _ t _ => (t + 1, ()))
        (fun _ t => t) (fun t => t)).map (fun m => m.forward 5 [])
      = Except.ok (Except.ok (5, none)) ∧
    (mkChatGLMModel (T := ℚ) (K := Unit) (P := ℚ) (ι := ℚ) (fun q => q)
        argsC2CacheOn
        (fun q => q) (fun _ => 0) (fun _ => 0)
        (fun _ t => t) (fun _ t => t) (fun _ t _ => (t + 1, ()))
        (fun _ t => t) (fun t => t)).map (fun m => m.forward 5 [])
      = Except.ok (Except.ok (22, some [()])) := by
  constructor
  · rfl
  · simp [mkChatGLMModel, mkChatGLMDecoderLayer, selectLayerVariant,
      ChatGLMModel.forward, ChatGLMDecoderLayer.forward, runDecoderLayers,
      List.range_succ, List.mapM.loop, Except.bind, Except.map,
      chatglm2FamilyNames, nonLegacyNames, argsC2CacheOn]
    norm_num

/-- Concrete chatglm_6b args for the C5 counterexample. -/
def argsC5Legacy : Args :=
  { model_name := "chatglm_6b", num_layers := 1,
    apply_residual_connection_post_layernorm := false, rmsnorm := false,
    rotary_embedding_scaling := 1, use_cache := true,
    hidden_size := 4096, vocab_size := 130528 }

/-- C5 (counterexample): chatglm_6b is a 2-D positional-encoding variant per
the input contract (`prepare_inputs` passes `position_encoding_2d = True` for
it, model.py line 448), yet the stack forward does NOT embed the two
position-id columns: construction creates no position/block embedding tables
(`position_embeddings`/`block_embeddings` exist only for glm_10b, lines
202-222) and the glm_10b-only branch at line 244 is skipped, so the token
embedding (7) reaches the first layer unchanged and the run below is
untouched by the would-be table values (100 each); the output is the layer
result 28 of the bare token embedding, not of 7 + 100 + 100. -/
theorem c5_counterexample :
    (mkChatGLMModel (T := ℚ) (K := Unit) (P := ℚ) (ι := ℚ) (fun _ => 1)
        argsC5Legacy (fun _ => 7) (fun _ => 100) (fun _ => 100)
        (fun _ t => t) (fun _ t => t) (fun _ t _ => (t, ()))
        (fun _ t => t) (fun t => t)).map
      (fun m => (m.position_embeddings.isSome, m.block_embeddings.isSome,
                 m.forward 2 [5, 9]))
      = Except.ok (false, false, Except.ok (28, some [()])) := by
  simp [mkChatGLMModel, mkChatGLMDecoderLayer, selectLayerVariant,
    ChatGLMModel.forward, ChatGLMDecoderLayer.forward, runDecoderLayers,
    List.range_succ, List.mapM.loop, Except.bind, Except.map,
    chatglm2FamilyNames, nonLegacyNames, argsC5Legacy]
  norm_num

/-- C5 (amended): only glm_10b takes the learned 2-D positional path of
`ChatGLMModel.forward`: for it, construction creates the two dedicated
embedding tables, and forward splits position_ids into its columns, embeds
column 0 through `position_embeddings` and column 1 through
`block_embeddings`, sums the two, and adds the sum to the token embedding
before the first decoder layer; chatglm_6b, although a 2-D position-id
variant in the input contract, instead forwards its position ids to the
attention black boxes. -/
theorem c5_glm10b_position_path {T K P ι : Type} [AddCommGroup T] [Module ℚ T]
    (psqrt : ℚ → ℚ) (args : Args) (hname : args.model_name = "glm_10b")
    (embF : ι → T) (posEmbF blockEmbF : P → T)
    (layerPre layerPost : Nat → T → T) (layerAttn : Nat → T → List P → T × K)
    (layerMlp : Nat → T → T) (finalNormF : T → T)
    (x : ι) (p0 p1 : P) (rest : List P) :
    ∃ m, mkChatGLMModel psqrt args embF posEmbF blockEmbF layerPre layerPost
          layerAttn layerMlp finalNormF = Except.ok m ∧
      m.position_embeddings = some posEmbF ∧
      m.block_embeddings = some blockEmbF ∧
      m.forward x (p0 :: p1 :: rest)
        = (runDecoderLayers args.use_cache (p0 :: p1 :: rest) m.layers
              (embF x + (posEmbF p0 + blockEmbF p1))).bind
            (fun r => Except.ok (finalNormF r.1,
              if args.use_cache then some r.2 else none)) := by
  have hlayer : ∀ i ∈ List.range args.num_layers,
      (mkChatGLMDecoderLayer (T := T) (K := K) (P := P) psqrt args
          (layerPre i) (layerPost i) (layerAttn i) (layerMlp i)).map
        ChatGLMDecoderLayer.forward
        = Except.ok (ChatGLMDecoderLayer.forward
            { model_name := args.model_name
              use_cache := args.use_cache
              alpha := none
              apply_residual_connection_post_layernorm :=
                some args.apply_residual_connection_post_layernorm
              norm := NormKind.layerNorm
              pre_norm := layerPre i
              attention := layerAttn i
              mlp := layerMlp i
              post_norm := layerPost i }) := by
    intro i _
    simp [mkChatGLMDecoderLayer, selectLayerVariant, chatglm2FamilyNames,
      Except.map, hname]
  unfold mkChatGLMModel
  rw [exceptMapM_ok _ _ _ hlayer]
  simp [ChatGLMModel.forward, Except.bind, hname]

/-- Concrete glm_10b args (zero layers) for the C5 witness. -/
def argsC5Glm : Args :=
  { model_name := "glm_10b", num_layers := 0,
    apply_residual_connection_post_layernorm := false, rmsnorm := false,
    rotary_embedding_scaling := 1, use_cache := true,
    hidden_size := 4096, vocab_size := 50304 }

/-- C5 witness for the amended theorem: a concrete glm_10b stack embeds
position column 5 and block column 9 through its two tables and adds their
sum to the token embedding. -/
theorem c5_glm10b_position_path_witness :
    (argsC5Glm.model_name = "glm_10b") ∧
    (∃ m, mkChatGLMModel (T := ℚ) (K := Unit) (P := ℚ) (ι := ℚ) (fun q => q)
          argsC5Glm (fun _ => 7) (fun p => p) (fun p => 10 * p)
          (fun _ t => t) (fun _ t => t) (fun _ t _ => (t, ())) (fun _ t => t)
          (fun t => t) = Except.ok m ∧
      m.position_embeddings = some (fun p => p) ∧
      m.block_embeddings = some (fun p => 10 * p) ∧
      m.forward 1 (5 :: 9 :: [])
        = (runDecoderLayers argsC5Glm.use_cache (5 :: 9 :: []) m.layers
              ((fun _ => (7 : ℚ)) 1 + ((fun p => p) 5 + (fun p => 10 * p) 9))).bind
            (fun r => Except.ok ((fun t => t) r.1,
              if argsC5Glm.use_cache then some r.2 else none))) :=
  ⟨rfl, c5_glm10b_position_path (fun q => q) argsC5Glm rfl (fun _ => 7)
    (fun p => p) (fun p => 10 * p) (fun _ t => t) (fun _ t => t)
    (fun _ t _ => (t, ())) (fun _ t => t) (fun t => t) 1 5 9 []⟩

/-- C7: the head gathers one hidden-state row per sequence (at the position
named by `last_token_ids`) and projects it through the bias-free `lm_head`
whose output width is the vocabulary size padded up to a multiple of the
tensor-parallel degree; the logits therefore have exactly one row per
sequence in the batch. -/
theorem c7_lm_head_rows (hidden : List (List (List ℚ)))
    (last_token_ids : List Nat) (hidden_size vocab_size tp_size : Nat)
    (w : List (List ℚ))
    (hlen : last_token_ids.length = hidden.length) (htp : 0 < tp_size) :
    (headGatherProject (mkLmHead hidden_size vocab_size tp_size w) hidden
        last_token_ids).length = hidden.length ∧
    (mkLmHead hidden_size vocab_size tp_size w).bias = false ∧
    (mkLmHead hidden_size vocab_size tp_size w).out_features
      = pad_vocab_size vocab_size tp_size ∧
    tp_size ∣ pad_vocab_size vocab_size tp_size ∧
    vocab_size ≤ pad_vocab_size vocab_size tp_size := by
  refine ⟨?_, rfl, rfl, dvd_mul_left _ _, ?_⟩
  · simp [headGatherProject, gather_last_token_logits, hlen]
  · unfold pad_vocab_size
    have h := Nat.lt_div_mul_add (a := vocab_size + tp_size - 1) htp
    omega

/-- C7 witness: batch of two sequences, vocabulary 3 padded to 4 for two
shards. -/
theorem c7_lm_head_rows_witness :
    ([0, 0] : List Nat).length = ([[[1, 2]], [[3, 4]]] : List (List (List ℚ))).length ∧
    0 < 2 ∧
    ((headGatherProject (mkLmHead 2 3 2 [[1, 0], [0, 1], [1, 1], [0, 0]])
        [[[1, 2]], [[3, 4]]] [0, 0]).length
      = ([[[1, 2]], [[3, 4]]] : List (List (List ℚ))).length ∧
    (mkLmHead 2 3 2 [[1, 0], [0, 1], [1, 1], [0, 0]]).bias = false ∧
    (mkLmHead 2 3 2 [[1, 0], [0, 1], [1, 1], [0, 0]]).out_features
      = pad_vocab_size 3 2 ∧
    2 ∣ pad_vocab_size 3 2 ∧
    3 ≤ pad_vocab_size 3 2) :=
  ⟨rfl, Nat.zero_lt_two,
    c7_lm_head_rows [[[1, 2]], [[3, 4]]] [0, 0] 2 3 2
      [[1, 0], [0, 1], [1, 1], [0, 0]] rfl Nat.zero_lt_two⟩

/-- C10: whenever the head forward succeeds, it returns the present
key/value tensors and marks them as outputs exactly when the KV cache is in
use and the paged layout is disabled; in every other case only `logits` is
marked and returned.  The marked-output list always starts with `logits` and
continues with `present_key_value_i` for each returned present. -/
theorem c10_presents_marking {T K P ι L : Type} [AddCommGroup T] [Module ℚ T]
    (net : PluginConfig) (m : ChatGLMModel T K P ι)
    (gatherF : T → List Nat → Bool → T) (lmHeadF : T → L)
    (input_ids : ι) (position_ids : List P) (last_token_ids : List Nat)
    (out : HeadOut L K)
    (hok : chatGLMHeadForward net m gatherF lmHeadF input_ids position_ids
        last_token_ids = Except.ok out) :
    (out.presents.isSome = (m.use_cache && !net.paged_kv_cache)) ∧
    (out.presents = none → out.marked = ["logits"]) ∧
    (∀ ps, out.presents = some ps →
      out.marked = "logits" ::
        (List.range ps.length).map
          (fun i => "present_key_value_" ++ toString i)) := by
  unfold chatGLMHeadForward at hok
  cases hfw : m.forward input_ids position_ids with
  | error e => rw [hfw] at hok; cases hok
  | ok r =>
    rw [hfw] at hok
    simp only [Except.bind] at hok
    cases hc : m.use_cache with
    | false =>
      simp only [hc, Bool.false_eq_true, reduceIte, Except.bind, Bool.false_and,
        Except.ok.injEq] at hok
      subst hok
      simp
    | true =>
      simp only [hc, reduceIte, Except.bind] at hok
      cases hr2 : r.2 with
      | none =>
        simp only [hr2, Except.bind] at hok
        cases hok
      | some ps =>
        simp only [hr2, Except.bind] at hok
        cases hp : net.paged_kv_cache with
        | false =>
          simp only [hp, Bool.not_false, Bool.and_true, reduceIte,
            Except.ok.injEq] at hok
          subst hok
          simp
        | true =>
          simp only [hp, Bool.not_true, Bool.and_false, Bool.false_eq_true,
            reduceIte, Except.ok.injEq] at hok
          subst hok
          simp

/-- Concrete plugin configuration for the C10 witness: cache layout not
paged. -/
def headNetC10 : PluginConfig :=
  { remove_input_padding := false, paged_kv_cache := false }

/-- Concrete zero-layer stack for the C10 witness (cache in use). -/
def headModelC10 : ChatGLMModel ℚ Unit ℚ ℚ :=
  { model_name := "chatglm2_6b", use_cache := true, norm := NormKind.rmsNorm,
    embedding := fun q => q, position_embeddings := none,
    block_embeddings := none, layers := [], final_norm := fun t => t }

/-- C10 witness: with the cache in use and the paged layout disabled, the
head forward returns presents (here the empty per-layer list of a zero-layer
stack) and the presents slot is occupied. -/
theorem c10_presents_marking_witness :
    (chatGLMHeadForward (L := ℚ) headNetC10 headModelC10 (fun t _ _ => t)
        (fun t => t) 3 [] []
      = Except.ok { logits := 3, presents := some [], marked := ["logits"] }) ∧
    (({ logits := 3, presents := some [], marked := ["logits"] } :
        HeadOut ℚ Unit).presents.isSome
      = (headModelC10.use_cache && !headNetC10.paged_kv_cache)) :=
  ⟨rfl, (c10_presents_marking headNetC10 headModelC10 (fun t _ _ => t)
    (fun t => t) 3 [] [] _ rfl).1⟩
